import Mathlib

set_option maxHeartbeats 1000000

/-! Shallow embedding of the ferris-bot command dispatch and shared queue engine
(src/main.rs).  Pure data and control flow are translated directly; the
transports (Twitch say, Discord say) and the external formatter are modelled as
an environment of outcome functions, and a failed unwrap is modelled as an
explicit panicked flag. -/

/-- Sender metadata of an inbound chat message (the twitch_irc TwitchUserBasics fields used by the bot). -/
structure TwitchUserBasics where
  login : String
  name : String
  deriving DecidableEq, Repr

/-- Inbound chat message, mirroring the twitch_irc PrivmsgMessage fields consulted by main.rs. -/
structure PrivmsgMessage where
  channel_login : String
  message_text : String
  sender : TwitchUserBasics
  deriving DecidableEq, Repr

/-- Discord half of the bot configuration (main.rs, struct DiscordConfig). -/
structure DiscordConfig where
  channel_id : Nat
  deriving DecidableEq, Repr

/-- Bot configuration (main.rs, struct FerrisBotConfig); only the Discord part is consulted by the command handler. -/
structure FerrisBotConfig where
  discord : DiscordConfig
  deriving DecidableEq, Repr

/-- Modelled from the spec: the embedded asset texts (assets/dave.txt, assets/bazylia.txt, assets/zoya.txt) are compiled into main.rs but the files are not under src/; their contents are opaque to every claim, so they are parameters. -/
structure Assets where
  dave : String
  bazylia : String
  zoya : String
  deriving DecidableEq, Repr

/-- Closed set of chat commands (main.rs, enum TwitchCommand). -/
inductive TwitchCommand where
  | Join
  | Queue
  | ReplyWith (reply : String)
  | Broadcast (message : String)
  | Nothing
  | DiscordSnippet (snippet : String)
  deriving DecidableEq, Repr

/-- First-character test modelling message_text.starts_with with a char pattern (main.rs line 296). -/
def startsWithBang (s : String) : Bool :=
  match s.data with
  | [] => false
  | c :: _ => c == '!'

/-- Whether pat is a literal prefix of s, modelling str::starts_with with a string pattern. -/
def startsWithStr (pat s : String) : Bool :=
  pat.data.isPrefixOf s.data

/-- Accumulator splitter behind split_whitespace: collects maximal runs of non-whitespace characters. -/
def splitWsAux (acc : List Char) : List Char → List String
  | [] => if acc.isEmpty then [] else [String.mk acc.reverse]
  | c :: cs =>
    if c.isWhitespace then
      if acc.isEmpty then splitWsAux [] cs
      else String.mk acc.reverse :: splitWsAux [] cs
    else splitWsAux (c :: acc) cs

/-- Rust str::split_whitespace: whitespace-separated tokens with empties discarded (main.rs line 300). -/
def split_whitespace (s : String) : List String :=
  splitWsAux [] s.data

/-- Fuel-indexed loop stripping one leading occurrence of pat per step; the fuel passed in trim_start_matches exceeds the possible number of strips, each strip consuming at least one character. -/
def dropRepeatedFuel (pat : List Char) : Nat → List Char → List Char
  | 0, s => s
  | n + 1, s =>
    if pat.isPrefixOf s && !pat.isEmpty then dropRepeatedFuel pat n (s.drop pat.length)
    else s

/-- Rust str::trim_start_matches with a literal pattern: repeatedly removes pat from the front while it matches (main.rs line 316). -/
def trim_start_matches (s pat : String) : String :=
  String.mk (dropRepeatedFuel pat.data (s.data.length + 1) s.data)

/-- Token dispatch of TwitchCommand::parse_msg (main.rs lines 302 to 319): the slice patterns with trailing dots test only the first whitespace token, in source order; the snippet payload is the whole message text with the literal prefix repeatedly trimmed. -/
def classify_args (assets : Assets) (text : String) : List String → Option TwitchCommand
  | [] => none
  | tok :: _ =>
    if tok = "!join" then some TwitchCommand.Join
    else if tok = "!queue" then some TwitchCommand.Queue
    else if tok = "!pythonsucks" then some (TwitchCommand.ReplyWith "This must be Lord")
    else if tok = "!stonk" then some (TwitchCommand.ReplyWith "yOu shOULd Buy AMC sTOnKS")
    else if tok = "!c++" then some (TwitchCommand.ReplyWith "segmentation fault")
    else if tok = "!dave" then some (TwitchCommand.Broadcast assets.dave)
    else if tok = "!bazylia" then some (TwitchCommand.Broadcast assets.bazylia)
    else if tok = "!zoya" then some (TwitchCommand.Broadcast assets.zoya)
    else if tok = "!discord" then some (TwitchCommand.Broadcast "https://discord.gg/UyrsFX7N")
    else if tok = "!nothing" then some TwitchCommand.Nothing
    else if tok = "!code" then
      some (TwitchCommand.DiscordSnippet (trim_start_matches text "!code "))
    else none

/-- Modelled from main.rs, TwitchCommand::parse_msg (lines 295 to 320): reject text not starting with the trigger character, then dispatch on the whitespace-separated tokens. -/
def TwitchCommand.parse_msg (assets : Assets) (msg : PrivmsgMessage) : Option TwitchCommand :=
  if startsWithBang msg.message_text then
    classify_args assets msg.message_text (split_whitespace msg.message_text)
  else none

/-- The trigger tokens recognized by parse_msg, in source order. -/
def knownTokens : List String :=
  ["!join", "!queue", "!pythonsucks", "!stonk", "!c++", "!dave", "!bazylia",
   "!zoya", "!discord", "!nothing", "!code"]

/-- Modelled from the spec: role of a queued participant. The file queue_manager.rs is not under src/; the spec requires at least two tiers, and main.rs only ever joins with Default. -/
inductive UserType where
  | Default
  | Privileged
  deriving DecidableEq, Repr

/-- Modelled from the spec: the error surfaced by a duplicate join. -/
inductive QueueError where
  | AlreadyQueued
  deriving DecidableEq, Repr

/-- Modelled from the spec: the Queue Store, an ordered sequence of participants, each an identity with a role (queue_manager.rs is not under src/). -/
structure QueueManager where
  entries : List (String × UserType)
  deriving DecidableEq, Repr

/-- Modelled from the spec: a fresh empty queue (the QueueManager::new call in main.rs line 176). -/
def QueueManager.new : QueueManager := ⟨[]⟩

/-- Modelled from the spec: the ordered sequence of queued identities (the queue() call joined in main.rs line 252). -/
def QueueManager.queue (qm : QueueManager) : List String :=
  qm.entries.map (fun p => p.1)

/-- Spec name snapshot() for the ordered read-only view; same reading as QueueManager.queue. -/
def QueueManager.snapshot (qm : QueueManager) : List String :=
  qm.entries.map (fun p => p.1)

/-- Modelled from the spec: join fails with AlreadyQueued when the identity is already present; otherwise a Default entry appends at the tail (FIFO) and a Privileged entry inserts after the leading privileged entries and before the first Default entry. -/
def QueueManager.join (qm : QueueManager) (id : String) (ut : UserType) :
    Except QueueError QueueManager :=
  if qm.entries.any (fun p => p.1 == id) then
    Except.error QueueError.AlreadyQueued
  else
    match ut with
    | UserType.Default => Except.ok ⟨qm.entries ++ [(id, ut)]⟩
    | UserType.Privileged =>
        Except.ok ⟨qm.entries.takeWhile (fun p => p.2 == UserType.Privileged) ++
          (id, ut) :: qm.entries.dropWhile (fun p => p.2 == UserType.Privileged)⟩

/-- Outbound effect: one send the handler attempts through a transport, either an origin-chat say or a secondary-chat post. -/
inductive Effect where
  | TwitchSay (channel text : String)
  | DiscordSay (channel_id : Nat) (text : String)
  deriving DecidableEq, Repr

/-- Environment of transport and formatter outcomes: a send returns true when it succeeds, and format_snippet returns none on FormatError (process spawn failure, nonzero exit, or invalid output encoding in main.rs lines 323 to 341). -/
structure ExecEnv where
  twitchSay : String → String → Bool
  discordSay : Nat → String → Bool
  format_snippet : String → Option String

/-- Result of handling one command: the sends attempted in order, the queue state afterwards, and whether the handler panicked through an unwrap on a failed sub-operation. -/
structure HandleResult where
  effects : List Effect
  qm : QueueManager
  panicked : Bool
  deriving DecidableEq, Repr

/-- Modelled from main.rs, TwitchCommand::handle (lines 231 to 293): Join says the acknowledgment first and then unwraps the queue join; Queue, ReplyWith and Broadcast unwrap their Twitch say; Nothing and DiscordSnippet discard their Discord send result; DiscordSnippet falls back to the raw snippet when the formatter fails and wraps the result in the fixed code-block markers. -/
def TwitchCommand.handle (env : ExecEnv) (cfg : FerrisBotConfig) (cmd : TwitchCommand)
    (msg : PrivmsgMessage) (qm : QueueManager) : HandleResult :=
  match cmd with
  | TwitchCommand.Join =>
    let text := "@" ++ msg.sender.login ++ ": Join requested"
    if env.twitchSay msg.channel_login text then
      match qm.join msg.sender.login UserType.Default with
      | Except.ok qm2 => ⟨[Effect.TwitchSay msg.channel_login text], qm2, false⟩
      | Except.error _ => ⟨[Effect.TwitchSay msg.channel_login text], qm, true⟩
    else ⟨[Effect.TwitchSay msg.channel_login text], qm, true⟩
  | TwitchCommand.Queue =>
    let reply := String.intercalate ", " qm.queue
    let text := "@" ++ msg.sender.login ++ ": Current queue: " ++ reply
    ⟨[Effect.TwitchSay msg.channel_login text], qm, !env.twitchSay msg.channel_login text⟩
  | TwitchCommand.ReplyWith reply =>
    let text := "@" ++ msg.sender.login ++ ": " ++ reply
    ⟨[Effect.TwitchSay msg.channel_login text], qm, !env.twitchSay msg.channel_login text⟩
  | TwitchCommand.Broadcast message =>
    ⟨[Effect.TwitchSay msg.channel_login message], qm, !env.twitchSay msg.channel_login message⟩
  | TwitchCommand.Nothing =>
    ⟨[Effect.DiscordSay cfg.discord.channel_id "This does nothing"], qm, false⟩
  | TwitchCommand.DiscordSnippet snippet =>
    let formatted := (env.format_snippet snippet).getD snippet
    let code_block := "```rs\n" ++ formatted ++ "\n```"
    ⟨[Effect.DiscordSay cfg.discord.channel_id code_block], qm, false⟩

/-- Result of running the dispatch loop over a list of inbound messages. -/
structure DispatchResult where
  effects : List Effect
  qm : QueueManager
  aborted : Bool
  deriving DecidableEq, Repr

/-- Modelled from main.rs, the spawned dispatch loop (lines 195 to 207): parse each inbound message, handle recognized commands in arrival order, and stop at the first handler panic, since a panic unwinds the spawned task. -/
def dispatch (env : ExecEnv) (assets : Assets) (cfg : FerrisBotConfig) :
    QueueManager → List PrivmsgMessage → DispatchResult
  | qm, [] => ⟨[], qm, false⟩
  | qm, m :: rest =>
    match TwitchCommand.parse_msg assets m with
    | none => dispatch env assets cfg qm rest
    | some cmd =>
      let r := TwitchCommand.handle env cfg cmd m qm
      if r.panicked then ⟨r.effects, r.qm, true⟩
      else
        let d := dispatch env assets cfg r.qm rest
        ⟨r.effects ++ d.effects, d.qm, d.aborted⟩

/-- Sample sender used in concrete instances. -/
def userEx : TwitchUserBasics := ⟨"login", "name"⟩

/-- Helper building a message with the given text from the fixed sender in a fixed channel. -/
def mkMsg (text : String) : PrivmsgMessage := ⟨"channel_login", text, userEx⟩

/-- Concrete asset texts for concrete instances; their contents are irrelevant to every claim. -/
def assetsEx : Assets := ⟨"dave", "bazylia", "zoya"⟩

/-- Concrete configuration for concrete instances. -/
def cfgEx : FerrisBotConfig := ⟨⟨1⟩⟩

/-- Environment where every transport send succeeds and the formatter fails. -/
def envOk : ExecEnv := ⟨fun _ _ => true, fun _ _ => true, fun _ => none⟩

/-- Environment where origin-chat sends fail and secondary-chat sends succeed. -/
def envTwitchFail : ExecEnv := ⟨fun _ _ => false, fun _ _ => true, fun _ => none⟩

/-- Environment where secondary-chat sends fail and origin-chat sends succeed. -/
def envDiscordFail : ExecEnv := ⟨fun _ _ => true, fun _ _ => false, fun _ => none⟩

/-- Queue entries of a sample already-queued sender, matching the fixed sender login. -/
def qmAlice : QueueManager := ⟨[("login", UserType.Default)]⟩

/-! Helper lemmas about the parsing primitives. -/

/-- Splitting a text that starts with the six characters of the snippet trigger token and a space yields that token followed by the split of the remainder. -/
theorem splitWs_code (l : List Char) :
    splitWsAux [] ('!' :: 'c' :: 'o' :: 'd' :: 'e' :: ' ' :: l) = "!code" :: splitWsAux [] l := rfl

/-- When pat does not match the front of s, the trimming loop returns s whatever the fuel. -/
theorem dropRepeatedFuel_of_not (pat l : List Char) (h : pat.isPrefixOf l = false) :
    ∀ fuel, dropRepeatedFuel pat fuel l = l := by
  intro fuel
  cases fuel <;> simp [dropRepeatedFuel, h]

/-- One successful strip of the leading pattern consumes one unit of fuel. -/
theorem dropRepeatedFuel_append (pat l : List Char) (hpat : pat.isEmpty = false)
    (fuel : Nat) (hf : fuel ≠ 0) :
    dropRepeatedFuel pat fuel (pat ++ l) = dropRepeatedFuel pat (fuel - 1) l := by
  cases fuel with
  | zero => exact absurd rfl hf
  | succ n =>
    simp [dropRepeatedFuel, hpat, List.prefix_append, List.drop_left]

/-- Trimming the snippet trigger from a text it was just prepended to recovers the remainder, provided the remainder does not itself start with the trigger again. -/
theorem trim_code_append (rest : String) (h : startsWithStr "!code " rest = false) :
    trim_start_matches ("!code " ++ rest) "!code " = rest := by
  unfold trim_start_matches
  rw [String.data_append]
  rw [dropRepeatedFuel_append "!code ".data rest.data rfl _ (by simp)]
  rw [dropRepeatedFuel_of_not _ _ h]

/-- Parsing a text built from the snippet trigger and a payload yields the snippet command carrying the payload verbatim, provided the payload does not itself start with the trigger again. -/
theorem parse_code_append (assets : Assets) (ch : String) (u : TwitchUserBasics)
    (rest : String) (h : startsWithStr "!code " rest = false) :
    TwitchCommand.parse_msg assets ⟨ch, "!code " ++ rest, u⟩
      = some (TwitchCommand.DiscordSnippet rest) := by
  have h2 : split_whitespace ("!code " ++ rest) = "!code" :: splitWsAux [] rest.data := by
    show splitWsAux [] ("!code " ++ rest).data = _
    rw [String.data_append]
    exact splitWs_code rest.data
  have h1 : startsWithBang ("!code " ++ rest) = true := rfl
  unfold TwitchCommand.parse_msg
  rw [h1]
  rw [if_pos rfl]
  rw [h2]
  show some (TwitchCommand.DiscordSnippet (trim_start_matches ("!code " ++ rest) "!code "))
    = some (TwitchCommand.DiscordSnippet rest)
  rw [trim_code_append rest h]

/-- A join by an identity already in the snapshot fails with AlreadyQueued, whatever the requested role. -/
theorem join_mem_error (qm : QueueManager) (id : String) (ut : UserType)
    (h : id ∈ qm.snapshot) : qm.join id ut = Except.error QueueError.AlreadyQueued := by
  have hany : qm.entries.any (fun p => p.1 == id) = true := by
    simp only [QueueManager.snapshot, List.mem_map] at h
    obtain ⟨p, hp, heq⟩ := h
    exact List.any_eq_true.mpr ⟨p, hp, by simp [heq]⟩
  unfold QueueManager.join
  rw [hany]
  simp

/-- A join by a fresh identity succeeds, inserting the new participant exactly once between a part of the old entries and the remainder. -/
theorem join_not_mem_eq (qm : QueueManager) (id : String) (ut : UserType)
    (h : id ∉ qm.snapshot) :
    ∃ pre post, qm.join id ut = Except.ok ⟨pre ++ (id, ut) :: post⟩ ∧
      pre ++ post = qm.entries := by
  have hany : qm.entries.any (fun p => p.1 == id) = false := by
    rw [List.any_eq_false]
    intro p hp
    simp only [beq_iff_eq]
    intro heq
    exact h (by
      simp only [QueueManager.snapshot, List.mem_map]
      exact ⟨p, hp, heq⟩)
  unfold QueueManager.join
  rw [hany]
  cases ut with
  | Default => exact ⟨qm.entries, [], by simp, by simp⟩
  | Privileged =>
    refine ⟨qm.entries.takeWhile (fun p => p.2 == UserType.Privileged),
      qm.entries.dropWhile (fun p => p.2 == UserType.Privileged), by simp, ?_⟩
    exact List.takeWhile_append_dropWhile _ _

/-! Claim theorems. -/

/-- Claim C3, counterexample: on the input text consisting of the snippet trigger token twice followed by x+y, the classifier strips the literal leading pattern repeatedly, so the payload is x+y rather than everything after the first token verbatim. -/
theorem c3_counterexample :
    TwitchCommand.parse_msg assetsEx (mkMsg "!code !code x+y")
      = some (TwitchCommand.DiscordSnippet "x+y") ∧
    TwitchCommand.parse_msg assetsEx (mkMsg "!code !code x+y")
      ≠ some (TwitchCommand.DiscordSnippet "!code x+y") := by
  decide

/-- Claim C3 (amended): the classifier maps the token for join to Join, the token for queue to ListQueue, and the snippet example to its payload; in general the snippet payload is the message text with every leading repetition of the literal snippet-trigger-plus-space pattern removed, so whenever the remainder does not itself start with that pattern the payload is everything after the first token verbatim, internal whitespace preserved. -/
theorem c3_classifier_mapping_amended (assets : Assets) (ch : String) (u : TwitchUserBasics) :
    TwitchCommand.parse_msg assets ⟨ch, "!join", u⟩ = some TwitchCommand.Join ∧
    TwitchCommand.parse_msg assets ⟨ch, "!queue", u⟩ = some TwitchCommand.Queue ∧
    TwitchCommand.parse_msg assets ⟨ch, "!code x+y", u⟩
      = some (TwitchCommand.DiscordSnippet "x+y") ∧
    ∀ rest : String, startsWithStr "!code " rest = false →
      TwitchCommand.parse_msg assets ⟨ch, "!code " ++ rest, u⟩
        = some (TwitchCommand.DiscordSnippet rest) :=
  ⟨rfl, rfl, rfl, fun rest h => parse_code_append assets ch u rest h⟩

/-- Claim C3, witness: the payload-verbatim conjunct applied to the payload x y, which contains internal whitespace. -/
theorem c3_witness :
    TwitchCommand.parse_msg assetsEx ⟨"channel_login", "!code " ++ "x y", userEx⟩
      = some (TwitchCommand.DiscordSnippet "x y") :=
  (c3_classifier_mapping_amended assetsEx "channel_login" userEx).2.2.2 "x y" (by decide)

/-- Claim C8: for every raw message text that does not start with the trigger character, parse_msg returns none. -/
theorem c8_classify_none_without_trigger (assets : Assets) (msg : PrivmsgMessage)
    (h : startsWithBang msg.message_text = false) :
    TwitchCommand.parse_msg assets msg = none := by
  unfold TwitchCommand.parse_msg
  rw [h]
  simp

/-- Claim C8, witness: a plain chat line is not classified. -/
theorem c8_witness :
    TwitchCommand.parse_msg assetsEx (mkMsg "regular message text") = none :=
  c8_classify_none_without_trigger assetsEx (mkMsg "regular message text") (by decide)

/-- Claim C9: text starting with the trigger character whose first whitespace token matches no known command token is silently ignored, yielding none. -/
theorem c9_unknown_token_yields_none (assets : Assets) (msg : PrivmsgMessage)
    (h1 : startsWithBang msg.message_text = true)
    (h2 : ∀ tok ∈ knownTokens, (split_whitespace msg.message_text).head? ≠ some tok) :
    TwitchCommand.parse_msg assets msg = none := by
  unfold TwitchCommand.parse_msg
  rw [h1, if_pos rfl]
  cases hsp : split_whitespace msg.message_text with
  | nil => rfl
  | cons tok ts =>
    have hne : ∀ t ∈ knownTokens, ¬ tok = t := by
      intro t ht heq
      exact h2 t ht (by rw [hsp, heq]; rfl)
    simp only [classify_args]
    rw [if_neg (hne "!join" (by decide)), if_neg (hne "!queue" (by decide)),
      if_neg (hne "!pythonsucks" (by decide)), if_neg (hne "!stonk" (by decide)),
      if_neg (hne "!c++" (by decide)), if_neg (hne "!dave" (by decide)),
      if_neg (hne "!bazylia" (by decide)), if_neg (hne "!zoya" (by decide)),
      if_neg (hne "!discord" (by decide)), if_neg (hne "!nothing" (by decide)),
      if_neg (hne "!code" (by decide))]

/-- Claim C9, witness: an unrecognized trigger token is ignored. -/
theorem c9_witness :
    TwitchCommand.parse_msg assetsEx (mkMsg "!foo bar") = none :=
  c9_unknown_token_yields_none assetsEx (mkMsg "!foo bar") (by decide) (by decide)

/-- Claim C10: the bare snippet trigger token with no trailing space parses to a snippet command whose payload is the entire message text, because payload extraction only strips the literal pattern that includes the trailing space. -/
theorem c10_bare_code_token_keeps_full_text (assets : Assets) (ch : String)
    (u : TwitchUserBasics) :
    TwitchCommand.parse_msg assets ⟨ch, "!code", u⟩
      = some (TwitchCommand.DiscordSnippet "!code") := rfl

/-- Claim C6: the snippet handler posts to the secondary chat the formatter output on success, and the original unformatted text on formatter failure, in both cases wrapped in the fixed code-block markers; the handler never panics. -/
theorem c6_snippet_formatter_fallback (env : ExecEnv) (cfg : FerrisBotConfig)
    (msg : PrivmsgMessage) (s : String) (qm : QueueManager) :
    (env.format_snippet s = none →
      (TwitchCommand.handle env cfg (TwitchCommand.DiscordSnippet s) msg qm).effects
        = [Effect.DiscordSay cfg.discord.channel_id ("```rs\n" ++ s ++ "\n```")]) ∧
    (∀ f, env.format_snippet s = some f →
      (TwitchCommand.handle env cfg (TwitchCommand.DiscordSnippet s) msg qm).effects
        = [Effect.DiscordSay cfg.discord.channel_id ("```rs\n" ++ f ++ "\n```")]) ∧
    (TwitchCommand.handle env cfg (TwitchCommand.DiscordSnippet s) msg qm).panicked = false := by
  refine ⟨?_, ?_, rfl⟩
  · intro h
    unfold TwitchCommand.handle
    simp [h]
  · intro f h
    unfold TwitchCommand.handle
    simp [h]

/-- Claim C6, witness: with a failing formatter the posted payload is the raw snippet in the fixed markers. -/
theorem c6_witness :
    (TwitchCommand.handle envOk cfgEx (TwitchCommand.DiscordSnippet "let x = 1")
      (mkMsg "!code let x = 1") QueueManager.new).effects
      = [Effect.DiscordSay cfgEx.discord.channel_id ("```rs\n" ++ "let x = 1" ++ "\n```")] :=
  (c6_snippet_formatter_fallback envOk cfgEx (mkMsg "!code let x = 1") "let x = 1"
    QueueManager.new).1 rfl

/-- Claim C7: the Join handler emits exactly the acknowledgment reply to the sender, whatever the join outcome, and when the acknowledgment send succeeds it attempts the queue join with the Default role, keeping the new queue on success and the old queue on failure. -/
theorem c7_join_always_acknowledges (env : ExecEnv) (cfg : FerrisBotConfig)
    (msg : PrivmsgMessage) (qm : QueueManager) :
    (TwitchCommand.handle env cfg TwitchCommand.Join msg qm).effects
      = [Effect.TwitchSay msg.channel_login ("@" ++ msg.sender.login ++ ": Join requested")] ∧
    (env.twitchSay msg.channel_login ("@" ++ msg.sender.login ++ ": Join requested") = true →
      (TwitchCommand.handle env cfg TwitchCommand.Join msg qm).qm
        = match qm.join msg.sender.login UserType.Default with
          | Except.ok q => q
          | Except.error _ => qm) := by
  constructor
  · simp only [TwitchCommand.handle]
    cases h : env.twitchSay msg.channel_login ("@" ++ msg.sender.login ++ ": Join requested") with
    | false => simp [h]
    | true =>
      cases hj : qm.join msg.sender.login UserType.Default with
      | ok q => simp [h, hj]
      | error e => simp [h, hj]
  · intro hsay
    simp only [TwitchCommand.handle, hsay]
    cases hj : qm.join msg.sender.login UserType.Default with
    | ok q => simp [hj]
    | error e => simp [hj]

/-- Claim C7, witness: a fresh queue and an all-succeeding transport; the acknowledgment is emitted and the join is attempted with Default. -/
theorem c7_witness :
    (TwitchCommand.handle envOk cfgEx TwitchCommand.Join (mkMsg "!join")
        QueueManager.new).effects
      = [Effect.TwitchSay "channel_login" ("@" ++ "login" ++ ": Join requested")] ∧
    (TwitchCommand.handle envOk cfgEx TwitchCommand.Join (mkMsg "!join") QueueManager.new).qm
      = match QueueManager.new.join "login" UserType.Default with
        | Except.ok q => q
        | Except.error _ => QueueManager.new :=
  ⟨(c7_join_always_acknowledges envOk cfgEx (mkMsg "!join") QueueManager.new).1,
   (c7_join_always_acknowledges envOk cfgEx (mkMsg "!join") QueueManager.new).2 rfl⟩

/-- Claim C1, counterexample: with every transport send succeeding, handling a Join command from a sender whose identity is already queued panics the handler through the unwrap on the AlreadyQueued join result, aborting dispatch of the current message; the claim that handling never fails is false. -/
theorem c1_counterexample :
    (TwitchCommand.handle envOk cfgEx TwitchCommand.Join (mkMsg "!join") qmAlice).panicked
      = true := by
  decide

/-- Claim C1 (amended): a formatter failure degrades to the raw-text fallback effect and does not abort handling of the snippet command, but a queue join failing with AlreadyQueued is unwrapped and panics the Join handler, aborting dispatch of the current message. -/
theorem c1_executor_failure_modes_amended (env : ExecEnv) (cfg : FerrisBotConfig)
    (msg : PrivmsgMessage) (qm : QueueManager) (s : String) :
    (env.format_snippet s = none →
      (TwitchCommand.handle env cfg (TwitchCommand.DiscordSnippet s) msg qm).panicked = false ∧
      (TwitchCommand.handle env cfg (TwitchCommand.DiscordSnippet s) msg qm).effects
        = [Effect.DiscordSay cfg.discord.channel_id ("```rs\n" ++ s ++ "\n```")]) ∧
    (msg.sender.login ∈ qm.snapshot →
      (TwitchCommand.handle env cfg TwitchCommand.Join msg qm).panicked = true) := by
  constructor
  · intro h
    refine ⟨rfl, ?_⟩
    unfold TwitchCommand.handle
    simp [h]
  · intro h
    have hj := join_mem_error qm msg.sender.login UserType.Default h
    simp only [TwitchCommand.handle]
    cases hsay : env.twitchSay msg.channel_login ("@" ++ msg.sender.login ++ ": Join requested") with
    | false => simp [hsay]
    | true => simp [hsay, hj]

/-- Claim C1, witness: the formatter-failure half at a concrete snippet and the duplicate-join half at a concrete queued sender. -/
theorem c1_witness :
    (TwitchCommand.handle envOk cfgEx (TwitchCommand.DiscordSnippet "let x = 1")
      (mkMsg "!code let x = 1") QueueManager.new).panicked = false ∧
    (TwitchCommand.handle envOk cfgEx TwitchCommand.Join (mkMsg "!join") qmAlice).panicked
      = true :=
  ⟨((c1_executor_failure_modes_amended envOk cfgEx (mkMsg "!code let x = 1")
      QueueManager.new "let x = 1").1 rfl).1,
   (c1_executor_failure_modes_amended envOk cfgEx (mkMsg "!join") qmAlice "").2 (by decide)⟩

/-- Claim C2, counterexample: when the origin-chat transport fails, the unwrap in the ReplyWith handler panics and the dispatch loop stops, so the following inbound event is never processed and its secondary-chat effect never occurs; the claim that a send failure never prevents processing the next event is false. -/
theorem c2_counterexample :
    (dispatch envTwitchFail assetsEx cfgEx QueueManager.new
      [mkMsg "!stonk", mkMsg "!nothing"]).aborted = true ∧
    Effect.DiscordSay cfgEx.discord.channel_id "This does nothing"
      ∉ (dispatch envTwitchFail assetsEx cfgEx QueueManager.new
          [mkMsg "!stonk", mkMsg "!nothing"]).effects := by
  decide

/-- Claim C2 (amended): a failed secondary-chat (Discord) send is dropped without being propagated, so an event whose command posts only to the secondary chat never aborts the loop and the next inbound event is processed whatever the send outcome; origin-chat (Twitch) send failures, by contrast, are unwrapped and stop the loop. -/
theorem c2_dispatch_resilience_amended (env : ExecEnv) (assets : Assets)
    (cfg : FerrisBotConfig) (qm : QueueManager) (m : PrivmsgMessage)
    (rest : List PrivmsgMessage) (s : String)
    (h : TwitchCommand.parse_msg assets m = some (TwitchCommand.DiscordSnippet s)) :
    dispatch env assets cfg qm (m :: rest)
      = ⟨(TwitchCommand.handle env cfg (TwitchCommand.DiscordSnippet s) m qm).effects
          ++ (dispatch env assets cfg qm rest).effects,
        (dispatch env assets cfg qm rest).qm,
        (dispatch env assets cfg qm rest).aborted⟩ := by
  conv_lhs => rw [dispatch, h]
  rfl

/-- Claim C2, witness: with the secondary-chat transport failing, a snippet event is followed by a processed next event. -/
theorem c2_witness :
    dispatch envDiscordFail assetsEx cfgEx QueueManager.new
      [mkMsg "!code let x = 1", mkMsg "!nothing"]
      = ⟨(TwitchCommand.handle envDiscordFail cfgEx (TwitchCommand.DiscordSnippet "let x = 1")
            (mkMsg "!code let x = 1") QueueManager.new).effects
          ++ (dispatch envDiscordFail assetsEx cfgEx QueueManager.new
              [mkMsg "!nothing"]).effects,
        (dispatch envDiscordFail assetsEx cfgEx QueueManager.new [mkMsg "!nothing"]).qm,
        (dispatch envDiscordFail assetsEx cfgEx QueueManager.new [mkMsg "!nothing"]).aborted⟩ :=
  c2_dispatch_resilience_amended envDiscordFail assetsEx cfgEx QueueManager.new
    (mkMsg "!code let x = 1") [mkMsg "!nothing"] "let x = 1" (by decide)

/-- Claim C4: joining a fresh identity succeeds, a second join by the same identity fails with AlreadyQueued rather than silently succeeding, and the snapshot taken after both attempts contains the identity exactly once, whatever the roles requested. -/
theorem c4_queue_idempotence (qm : QueueManager) (id : String) (ut ut2 : UserType)
    (h : id ∉ qm.snapshot) :
    ∃ qm2, qm.join id ut = Except.ok qm2 ∧
      qm2.join id ut2 = Except.error QueueError.AlreadyQueued ∧
      qm2.snapshot.count id = 1 := by
  obtain ⟨pre, post, hjoin, hsplit⟩ := join_not_mem_eq qm id ut h
  have hmap : qm.snapshot = pre.map (fun p => p.1) ++ post.map (fun p => p.1) := by
    simp only [QueueManager.snapshot]
    rw [← hsplit, List.map_append]
  rw [hmap] at h
  simp only [List.mem_append] at h
  push_neg at h
  refine ⟨⟨pre ++ (id, ut) :: post⟩, hjoin, ?_, ?_⟩
  · apply join_mem_error
    simp only [QueueManager.snapshot, List.mem_map]
    exact ⟨(id, ut), by simp, rfl⟩
  · show ((⟨pre ++ (id, ut) :: post⟩ : QueueManager).snapshot).count id = 1
    simp only [QueueManager.snapshot, List.map_append, List.map_cons]
    rw [List.count_append]
    rw [List.count_eq_zero.mpr h.1]
    rw [List.count_cons_self]
    rw [List.count_eq_zero.mpr h.2]

/-- Claim C4, witness: joining a concrete identity twice on the fresh queue. -/
theorem c4_witness :
    ∃ qm2, QueueManager.new.join "alice" UserType.Default = Except.ok qm2 ∧
      qm2.join "alice" UserType.Default = Except.error QueueError.AlreadyQueued ∧
      qm2.snapshot.count "alice" = 1 :=
  c4_queue_idempotence QueueManager.new "alice" UserType.Default UserType.Default (by decide)

/-- Claim C5: joining three distinct Default-role identities in order on the fresh queue succeeds each time and yields exactly that order in the snapshot. -/
theorem c5_fifo_ordering (a b c : String) (hab : a ≠ b) (hac : a ≠ c) (hbc : b ≠ c) :
    ∃ q1 q2 q3,
      QueueManager.new.join a UserType.Default = Except.ok q1 ∧
      q1.join b UserType.Default = Except.ok q2 ∧
      q2.join c UserType.Default = Except.ok q3 ∧
      q3.snapshot = [a, b, c] := by
  refine ⟨⟨[(a, UserType.Default)]⟩, ⟨[(a, UserType.Default), (b, UserType.Default)]⟩,
    ⟨[(a, UserType.Default), (b, UserType.Default), (c, UserType.Default)]⟩, ?_, ?_, ?_, ?_⟩
  · rfl
  · simp [QueueManager.join, hab]
  · simp [QueueManager.join, hac, hbc]
  · rfl

/-- Claim C5, witness: three concrete identities join in order and the snapshot lists them in that order. -/
theorem c5_witness :
    ∃ q1 q2 q3,
      QueueManager.new.join "a" UserType.Default = Except.ok q1 ∧
      q1.join "b" UserType.Default = Except.ok q2 ∧
      q2.join "c" UserType.Default = Except.ok q3 ∧
      q3.snapshot = ["a", "b", "c"] :=
  c5_fifo_ordering "a" "b" "c" (by decide) (by decide) (by decide)
